import Mathlib

/-!
Shallow embedding of the `fnkit` Python library (result/option algebra) and
proofs about its combinator semantics.

Conventions of the embedding:
* A Python function that may `raise` is modelled as returning `Except Exc A`:
  `Except.error e` is an uncaught exception `e`, `Except.ok a` a normal return.
* `ChainedResult.value` has type `V ⊕ E`: `Sum.inr e` means the slot holds an
  `Exception` instance (the `isinstance(self.value, Exception)` test of the
  source is true), `Sum.inl v` that it holds a non-exception value.
* Python's `None` is modelled by `Option`'s `none` where a slot is nullable.
* CPython rejects a `typing.TypeVar` as the second argument of `isinstance`
  (`TypeError: isinstance() arg 2 must be a type or tuple of types`), so every
  `isinstance(x, T)` where `T = TypeVar('T')` raises for every `x`; this is
  captured once by `isinstanceTypeVar`.
-/

namespace fnkit

/-- Abstract Python exception kinds raised by the library's own code paths
(as opposed to failures of user-supplied transforms, which stay parametric). -/
inductive PyErr where
  | typeError : PyErr
  | indexError : PyErr
  | valueError : PyErr
deriving DecidableEq, Repr

/-- `isinstance(x, tv)` where `tv` is a `typing.TypeVar` (as in
`isinstance(self._value, T)` with `T = TypeVar('T')`): CPython raises
`TypeError` for every argument, since a `TypeVar` is not a type. -/
def isinstanceTypeVar {W : Type} (_x : W) : Except PyErr Bool :=
  Except.error PyErr.typeError

/-- A Python list comprehension `[x for x in xs if test(x)]` where the test
itself may raise: elements are tested left to right and a raised exception
propagates out of the whole comprehension. -/
def listCompFilter {W : Type} (xs : List W) (test : W → Except PyErr Bool) :
    Except PyErr (List W) :=
  match xs with
  | [] => Except.ok []
  | x :: rest => do
      let b ← test x
      let tail ← listCompFilter rest test
      pure (if b then x :: tail else tail)

/-- `ChainedResult` (src/fnkit/chainedResult.py): a current slot plus the list
of accumulated errors.  `value = Sum.inr e` models a slot holding an
`Exception` instance `e`. -/
structure ChainedResult (V E : Type) where
  value : V ⊕ E
  errors : List E
deriving DecidableEq, Repr

/-- `ChainedResult.chain`: short-circuits when the slot is an exception,
otherwise calls `func` on the slot, catching an internal raise `e` into a new
error-state result with `e` appended (`self.errors + [e]`). -/
def ChainedResult.chain {V W E : Type} (c : ChainedResult V E)
    (func : V → Except E (ChainedResult W E)) : ChainedResult W E :=
  match c.value with
  | Sum.inr e => ⟨Sum.inr e, c.errors⟩
  | Sum.inl v =>
    match func v with
    | Except.ok r => r
    | Except.error e => ⟨Sum.inr e, c.errors ++ [e]⟩

/-- `ChainedResult.map`: like `chain` but `func` returns a raw slot value
(which, Python being dynamic, may itself be an exception object — hence the
codomain `W ⊕ E`); a raise is caught and appended. -/
def ChainedResult.map {V W E : Type} (c : ChainedResult V E)
    (func : V → Except E (W ⊕ E)) : ChainedResult W E :=
  match c.value with
  | Sum.inr e => ⟨Sum.inr e, c.errors⟩
  | Sum.inl v =>
    match func v with
    | Except.ok w => ⟨w, c.errors⟩
    | Except.error e => ⟨Sum.inr e, c.errors ++ [e]⟩

/-- `ChainedResult.or_else`: `if isinstance(self.value, Exception): return
fn()` else `return self`.  The source returns `self` in the success case, so
the fallback's result type coincides with the receiver's. -/
def ChainedResult.or_else {V E : Type} (c : ChainedResult V E)
    (fn : Unit → ChainedResult V E) : ChainedResult V E :=
  match c.value with
  | Sum.inr _ => fn ()
  | Sum.inl _ => c

/-- `MultiErrorResult` (src/fnkit/multiiErrorResult.py): a current slot plus a
list of collected errors.  The slot's type is left free (`A`) because the
source stores values, error lists, or `None` there depending on the path. -/
structure MultiErrorResult (A E : Type) where
  _value : A
  _errors : List E
deriving DecidableEq, Repr

/-- `MultiErrorResult.unwrap`: `if self._errors: raise ValueError(... +
str(self._errors))` else `return self._value`.  The raised failure carries the
accumulated error list, modelled as `Except.error self._errors`. -/
def MultiErrorResult.unwrap {A E : Type} (m : MultiErrorResult A E) :
    Except (List E) A :=
  match m._errors with
  | [] => Except.ok m._value
  | _ :: _ => Except.error m._errors

/-- `MultiErrorResult.map`: with errors present, returns
`MultiErrorResult(self._errors, self._errors)` (the slot becomes the error
list); with no errors, applies `func`, catching a raise `e` into
`MultiErrorResult([e] + self._errors, self._errors)`.  The output slot is
`W ⊕ List E`: `Sum.inl` a mapped value, `Sum.inr` an error list stored as the
slot. -/
def MultiErrorResult.map {A W E : Type} (m : MultiErrorResult A E)
    (func : A → Except E W) : MultiErrorResult (W ⊕ List E) E :=
  match m._errors with
  | e :: es => ⟨Sum.inr (e :: es), e :: es⟩
  | [] =>
    match func m._value with
    | Except.ok w => ⟨Sum.inl w, []⟩
    | Except.error e => ⟨Sum.inr (e :: m._errors), m._errors⟩

/-- `merge` (src/fnkit/__init__.py): `errors = [r for r in results if
isinstance(r, E)]` with `E = TypeVar('E')`, then `MultiErrorResult(errors)`
(note: `errors` becomes the *value* slot, the `_errors` field defaults to
`[]`).  The comprehension's `isinstance` test raises `TypeError` on the first
element. -/
def merge {W : Type} (results : List W) :
    Except PyErr (MultiErrorResult (List W) W) :=
  match listCompFilter results (fun r => isinstanceTypeVar r) with
  | Except.error e => Except.error e
  | Except.ok errors => Except.ok ⟨errors, []⟩

/-- `Option` class (src/fnkit/option.py), named `FnOption` to avoid the clash
with Lean's `Option`.  The nullable slot `_value : Option V` uses `none` for
Python's `None`. -/
structure FnOption (V : Type) where
  _value : Option V
deriving DecidableEq, Repr

/-- `Option.is_some`: `self._value is not None`. -/
def FnOption.is_some {V : Type} (o : FnOption V) : Bool :=
  o._value.isSome

/-- `Option.is_none`: `self._value is None`. -/
def FnOption.is_none {V : Type} (o : FnOption V) : Bool :=
  o._value.isNone

/-- `Option.map`: `if self.is_some(): return Option(fn(self._value))` else
`return Option(None)`.  `fn` may raise (not caught here) and may return
Python `None` (codomain `Option W`), which yields an absent result. -/
def FnOption.map {V W : Type} (o : FnOption V)
    (fn : V → Except PyErr (Option W)) : Except PyErr (FnOption W) :=
  match o._value with
  | some v =>
    match fn v with
    | Except.ok w => Except.ok ⟨w⟩
    | Except.error e => Except.error e
  | none => Except.ok ⟨none⟩

/-- `Some` (src/fnkit/some.py): `Some.__init__` delegates to
`Option.__init__`, a plain assignment, so instances always exist. -/
structure Some (V : Type) where
  _value : V
deriving DecidableEq, Repr

/-- `Some.map`: `return Some(fn(self._value))`. -/
def Some.map {V W : Type} (s : Some V) (fn : V → W) : Some W :=
  ⟨fn s._value⟩

/-- `NoneType()` (src/fnkit/noneType.py): the class declares no `__init__`,
so the call resolves to `Option.__init__(self, value)` with the required
`value` argument missing — a `TypeError` for every call. -/
def NoneType.init {V : Type} : Except PyErr (FnOption V) :=
  Except.error PyErr.typeError

/-- `option` factory (src/fnkit/some.py): `Some(value) if value is not None
else NoneType()`.  The argument is nullable; the `None` branch calls
`NoneType()`. -/
def option {V : Type} (value : Option V) :
    Except PyErr (Some V ⊕ FnOption V) :=
  match value with
  | some v => Except.ok (Sum.inl ⟨v⟩)
  | none =>
    match (NoneType.init : Except PyErr (FnOption V)) with
    | Except.error e => Except.error e
    | Except.ok o => Except.ok (Sum.inr o)

/-- Base `Result` (src/fnkit/result.py): a single `_value` slot holding
`Union[T, E, NoneType]`. -/
structure Result (W : Type) where
  _value : W
deriving DecidableEq, Repr

/-- `Result.__init__`: `if isinstance(value, (T, E, NoneType)): ... else:
raise TypeError(...)`.  The tuple's first element `T` is a `TypeVar`, so the
`isinstance` call itself raises `TypeError` before any branch is taken. -/
def Result.init {W : Type} (value : W) : Except PyErr (Result W) :=
  match isinstanceTypeVar value with
  | Except.error e => Except.error e
  | Except.ok b => if b then Except.ok ⟨value⟩ else Except.error PyErr.typeError

/-- `Result.is_ok`: `isinstance(self._value, T)` with `T` a `TypeVar`. -/
def Result.is_ok {W : Type} (r : Result W) : Except PyErr Bool :=
  isinstanceTypeVar r._value

/-- `Result.is_err`: `isinstance(self._value, E)` with `E` a `TypeVar`. -/
def Result.is_err {W : Type} (r : Result W) : Except PyErr Bool :=
  isinstanceTypeVar r._value

/-- `Result.unwrap`: `if self.is_err(): raise ValueError(...)` — evaluating
the condition already raises. -/
def Result.unwrap {W : Type} (r : Result W) : Except PyErr W :=
  match r.is_err with
  | Except.error e => Except.error e
  | Except.ok b => if b then Except.error PyErr.valueError else Except.ok r._value

/-- `Result.map`: `if self.is_ok(): return Result(fn(self._value))` else
`return self` (the source returns either a freshly wrapped `Result` or the
receiver, hence the sum codomain). -/
def Result.map {W X : Type} (r : Result W) (fn : W → X) :
    Except PyErr (Result X ⊕ Result W) :=
  match r.is_ok with
  | Except.error e => Except.error e
  | Except.ok b =>
    if b then
      match Result.init (fn r._value) with
      | Except.error e => Except.error e
      | Except.ok r2 => Except.ok (Sum.inl r2)
    else Except.ok (Sum.inr r)

/-- `Result.map_err`: `if self.is_err(): return Result(fn(self._value))` else
`return self`. -/
def Result.map_err {W X : Type} (r : Result W) (fn : W → X) :
    Except PyErr (Result X ⊕ Result W) :=
  match r.is_err with
  | Except.error e => Except.error e
  | Except.ok b =>
    if b then
      match Result.init (fn r._value) with
      | Except.error e => Except.error e
      | Except.ok r2 => Except.ok (Sum.inl r2)
    else Except.ok (Sum.inr r)

/-- `Result.or_else`: `if self.is_ok(): return self._value; return fn()`. -/
def Result.or_else {W : Type} (r : Result W) (fn : Unit → W) :
    Except PyErr W :=
  match r.is_ok with
  | Except.error e => Except.error e
  | Except.ok b => if b then Except.ok r._value else Except.ok (fn ())

/-- `Result.get`: `if self.is_ok(): return self._value; return default`. -/
def Result.get {W : Type} (r : Result W) (default : W) : Except PyErr W :=
  match r.is_ok with
  | Except.error e => Except.error e
  | Except.ok b => if b then Except.ok r._value else Except.ok default

/-- `Ok.__init__` (src/fnkit/ok.py): `super().__init__(value)` runs
`Result.__init__` and therefore its `isinstance` check on `TypeVar`s. -/
def Ok.init {V : Type} (value : V) : Except PyErr (Result V) :=
  Result.init value

/-- `Ok.map`: `return Ok(fn(self._value))` — the construction goes through
`Result.__init__`.  The receiver is a base-`Result`-shaped record holding the
`Ok` value. -/
def Ok.map {V W : Type} (r : Result V) (fn : V → W) : Except PyErr (Result W) :=
  Ok.init (fn r._value)

/-- `Choice` (src/fnkit/choice.py): a single `_value` slot (its `__init__`
performs a plain assignment, no check). -/
structure Choice (W : Type) where
  _value : W
deriving DecidableEq, Repr

/-- `Choice.is_some`: `isinstance(self._value, T)` with `T` a `TypeVar`. -/
def Choice.is_some {W : Type} (c : Choice W) : Except PyErr Bool :=
  isinstanceTypeVar c._value

/-- `Choice.is_err`: `isinstance(self._value, E)` with `E` a `TypeVar`. -/
def Choice.is_err {W : Type} (c : Choice W) : Except PyErr Bool :=
  isinstanceTypeVar c._value

/-- `filter_results` (src/fnkit/__init__.py): `[r for r in results if
isinstance(r, T) and predicate(r)]` with `T` a `TypeVar`. -/
def filter_results {W : Type} (results : List W) (predicate : W → Bool) :
    Except PyErr (List W) :=
  listCompFilter results (fun r =>
    match isinstanceTypeVar r with
    | Except.error e => Except.error e
    | Except.ok b => Except.ok (b && predicate r))

/-- `filter_errors` (src/fnkit/__init__.py): `[r for r in results if
isinstance(r, E) and predicate(r)]` with `E` a `TypeVar`. -/
def filter_errors {W : Type} (results : List W) (predicate : W → Bool) :
    Except PyErr (List W) :=
  listCompFilter results (fun r =>
    match isinstanceTypeVar r with
    | Except.error e => Except.error e
    | Except.ok b => Except.ok (b && predicate r))

/-- `AsyncResult` (src/fnkit/asyncResult.py).  The wrapped computation is
modelled as a function of its invocation index (`computation n` is the
outcome of the `n`-th call of `self.computation()`), so that repeated
invocation is observable; `value`/`error` start as Python `None`. -/
structure AsyncResult (V E : Type) where
  computation : Nat → Except E V
  value : Option V
  error : Option E

/-- `AsyncResult.Await`: runs `self.value = await self.computation()` and
returns it; on an internal raise `e`, sets `self.error = e` and re-raises.
The extra `calls` argument threads the invocation counter: `Await` always
invokes the computation (the cached `value` is never consulted) and the
counter advances by one.  Returns (outcome, updated container, new counter). -/
def AsyncResult.Await {V E : Type} (a : AsyncResult V E) (calls : Nat) :
    Except E V × AsyncResult V E × Nat :=
  match a.computation calls with
  | Except.ok v => (Except.ok v, { a with value := some v }, calls + 1)
  | Except.error e => (Except.error e, { a with error := some e }, calls + 1)

/-- `reduce` (src/fnkit/__init__.py): `return func(results[0], results[1]) if
len(results) > 1 else results[0]`.  On an empty list, `results[0]` raises
`IndexError`. -/
def reduce {V : Type} (results : List V) (func : V → V → V) :
    Except PyErr V :=
  match results with
  | [] => Except.error PyErr.indexError
  | [x] => Except.ok x
  | x :: y :: _ => Except.ok (func x y)

/-- `reduce_async` (src/fnkit/__init__.py): awaits `results[0]` then folds
`func` over the remaining elements left to right (`results[0]` on an empty
list raises `IndexError` inside the coroutine).  Awaitables are modelled by
their resolved values. -/
def reduce_async {V : Type} (results : List V) (func : V → V → V) :
    Except PyErr V :=
  match results with
  | [] => Except.error PyErr.indexError
  | x :: rest => Except.ok (rest.foldl func x)

end fnkit

namespace fnkit

/-- C1: on a `ChainedResult` whose slot is an exception, `chain` ignores the
supplied function entirely (the result is the same for every `func`) and
returns a result with the same current error and the same accumulated error
list; on a success slot whose function raises `e`, the raise is caught and the
result is in error state with `e` appended as last element of the error list. -/
theorem chain_short_circuit_and_catch {V W E : Type} (c : ChainedResult V E) :
    (∀ e : E, c.value = Sum.inr e →
      ∀ func : V → Except E (ChainedResult W E),
        c.chain func = ⟨Sum.inr e, c.errors⟩) ∧
    (∀ (v : V) (func : V → Except E (ChainedResult W E)) (e : E),
      c.value = Sum.inl v → func v = Except.error e →
        c.chain func = ⟨Sum.inr e, c.errors ++ [e]⟩) := by
  constructor
  · intro e he func
    simp [ChainedResult.chain, he]
  · intro v func e hv hf
    simp [ChainedResult.chain, hv, hf]

/-- Concrete instances of `chain_short_circuit_and_catch`: an errored chain
short-circuits past an incrementing step, and a successful chain catches a
raising step. -/
theorem chain_short_circuit_and_catch_witness :
    ((⟨Sum.inr "bad", ["bad"]⟩ : ChainedResult Int String).chain
        (fun v => Except.ok ⟨Sum.inl (v + 1), []⟩) = ⟨Sum.inr "bad", ["bad"]⟩) ∧
    ((⟨Sum.inl 5, []⟩ : ChainedResult Int String).chain
        (fun _ => (Except.error "boom" : Except String (ChainedResult Int String)))
      = ⟨Sum.inr "boom", ["boom"]⟩) :=
  ⟨(chain_short_circuit_and_catch _).1 "bad" rfl _,
   (chain_short_circuit_and_catch _).2 5 _ "boom" rfl rfl⟩

/-- C2 counterexample: `Option.map` has no try/except, so a transform that
raises on a present value propagates the exception out of the `map` call
instead of returning a container — the blanket catch-at-combinator-boundary
claim is false at this input. -/
theorem option_map_lets_raise_propagate_cex :
    (⟨some 1⟩ : FnOption Int).map
        (fun _ => (Except.error PyErr.typeError : Except PyErr (Option Int)))
      = Except.error PyErr.typeError := rfl

/-- C2 amended: the catch-and-convert policy holds for `ChainedResult.chain`,
`ChainedResult.map` and `MultiErrorResult.map` (there the caught failure is
stored in the returned container's value slot as `[e]`, with the `_errors`
field left empty); `AsyncResult.Await` records an internal failure in the
error slot but re-raises it; `Option.map` does not catch at all, and every
`Result.map` call fails with `TypeError` before the transform runs. -/
theorem combinator_raise_handling {V W E A : Type} :
    (∀ (c : ChainedResult V E) (v : V)
        (func : V → Except E (ChainedResult W E)) (e : E),
      c.value = Sum.inl v → func v = Except.error e →
        c.chain func = ⟨Sum.inr e, c.errors ++ [e]⟩) ∧
    (∀ (c : ChainedResult V E) (v : V)
        (func : V → Except E (W ⊕ E)) (e : E),
      c.value = Sum.inl v → func v = Except.error e →
        c.map func = ⟨Sum.inr e, c.errors ++ [e]⟩) ∧
    (∀ (m : MultiErrorResult A E) (func : A → Except E W) (e : E),
      m._errors = [] → func m._value = Except.error e →
        m.map func = ⟨Sum.inr [e], []⟩) ∧
    (∀ (a : AsyncResult V E) (n : Nat) (e : E),
      a.computation n = Except.error e →
        a.Await n = (Except.error e, { a with error := some e }, n + 1)) ∧
    (∀ (o : FnOption V) (v : V) (fn : V → Except PyErr (Option W)) (e : PyErr),
      o._value = some v → fn v = Except.error e →
        o.map fn = Except.error e) ∧
    (∀ (r : Result V) (fn : V → W),
      r.map fn = Except.error PyErr.typeError) := by
  refine ⟨?_, ?_, ?_, ?_, ?_, ?_⟩
  · intro c v func e hv hf
    simp [ChainedResult.chain, hv, hf]
  · intro c v func e hv hf
    simp [ChainedResult.map, hv, hf]
  · intro m func e hm hf
    simp [MultiErrorResult.map, hm, hf]
  · intro a n e hc
    simp [AsyncResult.Await, hc]
  · intro o v fn e hv hf
    simp [FnOption.map, hv, hf]
  · intro r fn
    rfl

/-- Concrete instances of `combinator_raise_handling`, one per conjunct. -/
theorem combinator_raise_handling_witness :
    ((⟨Sum.inl 5, []⟩ : ChainedResult Int String).chain
        (fun _ => (Except.error "e" : Except String (ChainedResult Int String)))
      = ⟨Sum.inr "e", ["e"]⟩) ∧
    ((⟨Sum.inl 5, []⟩ : ChainedResult Int String).map
        (fun _ => (Except.error "e" : Except String (Int ⊕ String)))
      = ⟨Sum.inr "e", ["e"]⟩) ∧
    ((⟨7, []⟩ : MultiErrorResult Int String).map
        (fun _ => (Except.error "e" : Except String Int))
      = ⟨Sum.inr ["e"], []⟩) ∧
    ((⟨fun _ => Except.error "e", none, none⟩ : AsyncResult Int String).Await 0
      = (Except.error "e", ⟨fun _ => Except.error "e", none, some "e"⟩, 1)) ∧
    ((⟨some 5⟩ : FnOption Int).map
        (fun _ => (Except.error PyErr.valueError : Except PyErr (Option Int)))
      = Except.error PyErr.valueError) ∧
    ((⟨5⟩ : Result Int).map (fun x => x) = Except.error PyErr.typeError) :=
  ⟨(@combinator_raise_handling Int Int String Int).1 _ 5 _ "e" rfl rfl,
   (@combinator_raise_handling Int Int String Int).2.1 _ 5 _ "e" rfl rfl,
   (@combinator_raise_handling Int Int String Int).2.2.1 _ _ "e" rfl rfl,
   (@combinator_raise_handling Int Int String Int).2.2.2.1 _ 0 "e" rfl,
   (@combinator_raise_handling Int Int String Int).2.2.2.2.1 _ 5 _
     PyErr.valueError rfl rfl,
   (@combinator_raise_handling Int Int String Int).2.2.2.2.2 _ _⟩

/-- C3: `merge` applied to the cited input `[Ok(1), Err(e1), Ok(2), Err(e2)]`
(raw success/error values, modelled as a sum) does not build a
`MultiErrorResult` at all: its list comprehension runs `isinstance(result, E)`
with `E` a `TypeVar`, which raises `TypeError` on the first element. -/
theorem merge_raises_typeerror_on_cited_input :
    merge ([Sum.inl 1, Sum.inr "e1", Sum.inl 2, Sum.inr "e2"] :
        List (Int ⊕ String))
      = Except.error PyErr.typeError := rfl

/-- C4: `MultiErrorResult.unwrap` fails (with the accumulated error list)
exactly when the error list is non-empty — whatever the value slot holds —
and returns the slot's value when the list is empty.  The source's `unwrap`
only reads the container, so the container is unchanged. -/
theorem multi_unwrap_fails_iff_errors {A E : Type} (m : MultiErrorResult A E) :
    (m.unwrap = Except.error m._errors ↔ m._errors ≠ []) ∧
    (m._errors = [] → m.unwrap = Except.ok m._value) := by
  constructor
  · constructor
    · intro h hnil
      rw [show m.unwrap = Except.ok m._value by
            simp [MultiErrorResult.unwrap, hnil]] at h
      exact Except.noConfusion h
    · intro hne
      match he : m._errors with
      | [] => exact absurd he hne
      | e :: es => simp [MultiErrorResult.unwrap, he]
  · intro hnil
    simp [MultiErrorResult.unwrap, hnil]

/-- Concrete instances of `multi_unwrap_fails_iff_errors`: a container with
one error fails with that error list; an error-free container (even one whose
slot holds junk) unwraps to its slot. -/
theorem multi_unwrap_fails_iff_errors_witness :
    ((⟨0, ["e"]⟩ : MultiErrorResult Int String).unwrap = Except.error ["e"]) ∧
    ((⟨7, []⟩ : MultiErrorResult Int String).unwrap = Except.ok 7) :=
  ⟨(multi_unwrap_fails_iff_errors ⟨0, ["e"]⟩).1.2 (by decide),
   (multi_unwrap_fails_iff_errors ⟨7, []⟩).2 rfl⟩

/-- C5 counterexample: on a `ChainedResult` in error state with an *empty*
error history, the claim says the fallback is not invoked and the current
result is returned; the source's `or_else` only tests
`isinstance(self.value, Exception)`, so it returns the fallback's result,
which differs from the original container. -/
theorem or_else_fires_on_empty_history_cex :
    ((⟨Sum.inr "boom", []⟩ : ChainedResult Int String).or_else
        (fun _ => ⟨Sum.inl 99, []⟩) = ⟨Sum.inl 99, []⟩) ∧
    ((⟨Sum.inl 99, []⟩ : ChainedResult Int String) ≠ ⟨Sum.inr "boom", []⟩) :=
  ⟨rfl, by decide⟩

/-- C5 amended: `or_else` invokes the fallback and returns its result exactly
when the current slot is an error — the accumulated error sequence plays no
role — and on a success slot returns the receiver itself for every fallback. -/
theorem or_else_fires_iff_error_slot {V E : Type} (c : ChainedResult V E) :
    (∀ e : E, c.value = Sum.inr e →
      ∀ fn : Unit → ChainedResult V E, c.or_else fn = fn ()) ∧
    (∀ v : V, c.value = Sum.inl v →
      ∀ fn : Unit → ChainedResult V E, c.or_else fn = c) := by
  constructor
  · intro e he fn
    simp [ChainedResult.or_else, he]
  · intro v hv fn
    simp [ChainedResult.or_else, hv]

/-- Concrete instances of `or_else_fires_iff_error_slot`: the fallback fires
on an error slot with empty history, and is skipped on a success slot with
non-empty history. -/
theorem or_else_fires_iff_error_slot_witness :
    ((⟨Sum.inr "boom", []⟩ : ChainedResult Int String).or_else
        (fun _ => ⟨Sum.inl 1, []⟩) = ⟨Sum.inl 1, []⟩) ∧
    ((⟨Sum.inl 4, ["old"]⟩ : ChainedResult Int String).or_else
        (fun _ => ⟨Sum.inl 1, []⟩) = ⟨Sum.inl 4, ["old"]⟩) :=
  ⟨(or_else_fires_iff_error_slot _).1 "boom" rfl _,
   (or_else_fires_iff_error_slot _).2 4 rfl _⟩

/-- C6 counterexample: for a computation whose `n`-th invocation yields
`n + 1`, the first `Await` resolves to `1` and caches it in `value`, but the
second `Await` invokes the computation again (the invocation counter reaches
`2`) and returns the new outcome `2`, not the cached `1` — so a second call
does not return the cached value without recomputation. -/
theorem await_runs_computation_again_cex :
    (((⟨fun n => Except.ok (n + 1), none, none⟩ :
        AsyncResult Nat String).Await 0).1 = Except.ok 1) ∧
    (((⟨fun n => Except.ok (n + 1), none, none⟩ :
        AsyncResult Nat String).Await 0).2.1.value = some 1) ∧
    ((((⟨fun n => Except.ok (n + 1), none, none⟩ :
        AsyncResult Nat String).Await 0).2.1.Await 1).1 = Except.ok 2) ∧
    ((((⟨fun n => Except.ok (n + 1), none, none⟩ :
        AsyncResult Nat String).Await 0).2.1.Await 1).2.2 = 2) ∧
    ((Except.ok 2 : Except String Nat) ≠ Except.ok 1) :=
  ⟨rfl, rfl, rfl, rfl, by simp⟩

/-- C6 amended: a first successful `Await` does store the resolved value in
the container's `value` slot (and advances the invocation counter), but a
second `Await` runs the wrapped computation again — it returns the outcome of
the next invocation, advancing the counter once more, never consulting the
cache. -/
theorem await_caches_value_but_recomputes {V E : Type}
    (a : AsyncResult V E) (n : Nat) (v : V)
    (h : a.computation n = Except.ok v) :
    (a.Await n).1 = Except.ok v ∧
    (a.Await n).2.1.value = some v ∧
    (a.Await n).2.2 = n + 1 ∧
    ∀ w : V, a.computation (n + 1) = Except.ok w →
      ((a.Await n).2.1.Await (n + 1)).1 = Except.ok w ∧
      ((a.Await n).2.1.Await (n + 1)).2.2 = n + 2 := by
  refine ⟨?_, ?_, ?_, ?_⟩ <;> simp [AsyncResult.Await, h]
  intro w hw
  simp [hw]

/-- Concrete instance of `await_caches_value_but_recomputes`: a computation
yielding `k + 10` on its `k`-th invocation caches `10` after the first
`Await`, and the second `Await` yields the freshly computed `11`. -/
theorem await_caches_value_but_recomputes_witness :
    (((⟨fun k => Except.ok (k + 10), none, none⟩ :
        AsyncResult Nat String).Await 0).2.1.value = some 10) ∧
    ((((⟨fun k => Except.ok (k + 10), none, none⟩ :
        AsyncResult Nat String).Await 0).2.1.Await 1).1 = Except.ok 11) :=
  ⟨(@await_caches_value_but_recomputes Nat String
      ⟨fun k => Except.ok (k + 10), none, none⟩ 0 10 rfl).2.1,
   ((@await_caches_value_but_recomputes Nat String
      ⟨fun k => Except.ok (k + 10), none, none⟩ 0 10 rfl).2.2.2 11 rfl).1⟩

/-- C7: `reduce` combines only the first two elements — on `[1, 2, 3]` with
addition it returns `3`, not the full left fold `6` that the claim demands;
its sibling `reduce_async` does perform the full left fold and returns `6` on
the same input. -/
theorem reduce_ignores_elements_past_second :
    (reduce ([1, 2, 3] : List Int) (fun a b => a + b) = Except.ok 3) ∧
    (reduce_async ([1, 2, 3] : List Int) (fun a b => a + b) = Except.ok 6) ∧
    ((Except.ok 3 : Except PyErr Int) ≠ Except.ok 6) :=
  ⟨rfl, rfl, by simp⟩

/-- C8: the `map(identity)` functor law holds on `Some` (structure equality,
i.e. equality of held values), but on an `Ok`-state `Result` both the
constructor and `map` fail with `TypeError`: `Ok.map` rebuilds through
`Result.__init__`, whose `isinstance` check on `TypeVar`s raises, so the law
cannot hold for `Ok`. -/
theorem functor_law_some_holds_ok_raises :
    (∀ (V : Type) (s : Some V), s.map (fun x => x) = s) ∧
    (Ok.map (⟨10⟩ : Result Int) (fun x => x) = Except.error PyErr.typeError) ∧
    (Ok.init (10 : Int) = Except.error PyErr.typeError) := by
  refine ⟨?_, rfl, rfl⟩
  intro V s
  cases s
  rfl

/-- C9: every code path that branches on `isinstance(_, TypeVar)` raises
`TypeError` for every input: `Result.__init__`, the variant tests of `Result`
and `Choice` (they never return a boolean), every base-`Result` operation
that consults them (`map`, `map_err`, `or_else`, `get`, `unwrap`), and
`filter_results`/`filter_errors` on any non-empty list. -/
theorem typevar_dispatch_always_raises :
    (∀ (W : Type) (v : W), Result.init v = Except.error PyErr.typeError) ∧
    (∀ (W : Type) (r : Result W),
      r.is_ok = Except.error PyErr.typeError ∧
      r.is_err = Except.error PyErr.typeError) ∧
    (∀ (W : Type) (c : Choice W),
      c.is_some = Except.error PyErr.typeError ∧
      c.is_err = Except.error PyErr.typeError) ∧
    (∀ (W X : Type) (r : Result W) (fn : W → X),
      r.map fn = Except.error PyErr.typeError ∧
      r.map_err fn = Except.error PyErr.typeError) ∧
    (∀ (W : Type) (r : Result W) (fn : Unit → W) (d : W),
      r.or_else fn = Except.error PyErr.typeError ∧
      r.get d = Except.error PyErr.typeError ∧
      r.unwrap = Except.error PyErr.typeError) ∧
    (∀ (W : Type) (x : W) (rest : List W) (p : W → Bool),
      filter_results (x :: rest) p = Except.error PyErr.typeError ∧
      filter_errors (x :: rest) p = Except.error PyErr.typeError) :=
  ⟨fun _ _ => rfl,
   fun _ _ => ⟨rfl, rfl⟩,
   fun _ _ => ⟨rfl, rfl⟩,
   fun _ _ _ _ => ⟨rfl, rfl⟩,
   fun _ _ _ _ => ⟨rfl, rfl, rfl⟩,
   fun _ _ _ _ => ⟨rfl, rfl⟩⟩

/-- C10: on the `Option` class, `is_some` holds exactly when the slot is not
Python's `None` and `is_none` is its exact complement, `Option(None)` is
absent, and `map` with a `None`-returning transform on a present value yields
an absent instance — but the `option` factory does *not* map `None` to the
absent instance: it calls `NoneType()`, whose inherited `__init__` requires a
`value` argument, so it raises `TypeError`. -/
theorem option_null_invariants_and_factory :
    (∀ (V : Type) (o : FnOption V),
      (o.is_some = true ↔ o._value ≠ none) ∧ o.is_none = !o.is_some) ∧
    ((⟨none⟩ : FnOption Int).is_some = false) ∧
    (∀ (V W : Type) (o : FnOption V) (v : V)
        (fn : V → Except PyErr (Option W)),
      o._value = some v → fn v = Except.ok none →
        o.map fn = Except.ok ⟨none⟩) ∧
    (option (none : Option Int) = Except.error PyErr.typeError) := by
  refine ⟨?_, rfl, ?_, rfl⟩
  · intro V o
    cases o with
    | mk val =>
      cases val <;> simp [FnOption.is_some, FnOption.is_none]
  · intro V W o v fn hv hf
    simp [FnOption.map, hv, hf]

/-- Concrete instance of `option_null_invariants_and_factory`: mapping a
transform that returns `None` over a present `Option` yields the absent
instance. -/
theorem option_null_invariants_and_factory_witness :
    (⟨some 3⟩ : FnOption Int).map
        (fun _ => (Except.ok none : Except PyErr (Option Int)))
      = Except.ok ⟨none⟩ :=
  option_null_invariants_and_factory.2.2.1 Int Int ⟨some 3⟩ 3 _ rfl rfl

end fnkit
